import Mathlib

/-!
Verification of the QoS SDN traffic-classification core
(`enhanced_rule_controller.py`, `ml_enhanced_controller.py`).

The Python code is shallowly embedded: confidences, timestamps and rates
become rationals, Python dicts of features become association lists over a
fixed key type, and the stateful flow tracker becomes explicit state passing
(`FlowState` in, `FlowState` out).  `np.std` involves a real square root, so
the one extractor that stores a standard deviation is parameterised by the
square-root function `sq`; no theorem below depends on its values.
-/

/-- A value stored in the Python feature dict: either a number or a string
(only `protocol_type` holds a string in the source). -/
inductive FVal where
  | num : ℚ → FVal
  | str : String → FVal
deriving DecidableEq

/-- The feature-dict keys used across both controllers. -/
inductive FKey where
  | packet_length | in_port | ip_proto | ip_ttl | ip_len | ip_flags
  | src_port | dst_port | tcp_window | tcp_flags
  | tcp_fin | tcp_syn | tcp_rst | tcp_psh | tcp_ack | tcp_urg
  | udp_len | protocol_type | inter_arrival_time
  | flow_duration | flow_packet_count | flow_byte_count
  | avg_inter_arrival | std_inter_arrival | avg_packet_size | std_packet_size
  | packet_rate | byte_rate
deriving DecidableEq

/-- A Python dict, as an insertion-ordered association list. -/
abbrev Features := List (FKey × FVal)

/-- Python dict assignment `d[k] = v`: update in place if the key exists,
append otherwise. -/
def dictSet (d : Features) (k : FKey) (v : FVal) : Features :=
  match d with
  | [] => [(k, v)]
  | (k2, v2) :: rest => if k2 = k then (k, v) :: rest else (k2, v2) :: dictSet rest k v

/-- The numeric reading of a stored value (string-valued entries are never
read numerically in the source; 0 keeps the reading total). -/
def numVal : FVal → ℚ
  | FVal.num q => q
  | FVal.str _ => 0

/-- The string reading of a stored value. -/
def strVal : FVal → Option String
  | FVal.num _ => none
  | FVal.str s => some s

/-- Python `d.get(k, 0)` at the numeric call sites of the source. -/
def getNum (d : Features) (k : FKey) : ℚ :=
  ((List.lookup k d).map numVal).getD 0

/-- Python `d.get(k)` at the string call sites of the source
(`protocol_type`); `none` models Python's `None` default. -/
def getStr (d : Features) (k : FKey) : Option String :=
  (List.lookup k d).bind strVal

@[simp]
theorem lookup_dictSet_self (d : Features) (k : FKey) (v : FVal) :
    List.lookup k (dictSet d k v) = some v := by
  induction d with
  | nil => simp [dictSet, List.lookup]
  | cons p rest ih =>
    obtain ⟨k2, v2⟩ := p
    by_cases h : k2 = k
    · subst h
      simp [dictSet, List.lookup]
    · have hb : (k == k2) = false := beq_eq_false_iff_ne.mpr fun hh => h hh.symm
      simp [dictSet, h, List.lookup, hb, ih]

@[simp]
theorem lookup_dictSet_ne (d : Features) (k k2 : FKey) (v : FVal) (h : k ≠ k2) :
    List.lookup k2 (dictSet d k v) = List.lookup k2 d := by
  have hb : (k2 == k) = false := beq_eq_false_iff_ne.mpr (Ne.symm h)
  induction d with
  | nil => simp [dictSet, List.lookup, hb]
  | cons p rest ih =>
    obtain ⟨k3, v3⟩ := p
    by_cases h3 : k3 = k
    · subst h3
      simp [dictSet, List.lookup, hb]
    · by_cases h4 : k2 = k3
      · subst h4
        simp [dictSet, h3, List.lookup]
      · have hb4 : (k2 == k3) = false := beq_eq_false_iff_ne.mpr h4
        simp [dictSet, h3, List.lookup, hb4, ih]

@[simp]
theorem fkey_beq_false {k k2 : FKey} (h : k ≠ k2) : (k == k2) = false :=
  beq_eq_false_iff_ne.mpr h

/-- Python `int()` applied to a rational: truncation toward zero
(`Int.tdiv` on the reduced numerator and denominator). -/
def pyInt (q : ℚ) : ℤ :=
  Int.tdiv q.num q.den

/-- On nonnegative inputs, Python truncation agrees with the floor. -/
theorem pyInt_eq_floor (q : ℚ) (h : 0 ≤ q) : pyInt q = ⌊q⌋ := by
  rw [pyInt, Rat.floor_def,
    Int.tdiv_eq_ediv (Rat.num_nonneg.mpr h) (Int.ofNat_nonneg q.den)]

/-- `np.mean` over the samples of a rolling window. -/
def qMean (l : List ℚ) : ℚ := l.sum / l.length

/-- The variance (mean squared deviation); `np.std` is its square root. -/
def qVar (l : List ℚ) : ℚ := ((l.map (fun x => (x - qMean l) ^ 2)).sum) / l.length

structure Ipv4Header where
  proto : ℕ
  ttl : ℕ
  total_length : ℕ
  flags : ℕ
deriving DecidableEq

structure TcpHeader where
  src_port : ℕ
  dst_port : ℕ
  window_size : ℕ
  bits : ℕ
deriving DecidableEq

structure UdpHeader where
  src_port : ℕ
  dst_port : ℕ
  total_length : ℕ
deriving DecidableEq

/-- A decoded packet as the ryu handlers see it: raw bytes plus the parsed
protocol headers (`pkt.get_protocol(...)` results). -/
structure Packet where
  data : List ℕ
  ipv4 : Option Ipv4Header
  tcpH : Option TcpHeader
  udpH : Option UdpHeader
  icmpH : Bool
deriving DecidableEq

/-- Per-flow state kept in `self.flow_stats[flow_key]`. -/
structure FlowState where
  packet_count : ℕ
  byte_count : ℕ
  start_time : ℚ
  last_packet_time : ℚ
  inter_arrival_times : List ℚ
  packet_sizes : List ℚ
deriving DecidableEq

/-- The fresh dict entry created on a flow's first packet. -/
def freshFlowState (t : ℚ) : FlowState := ⟨0, 0, t, t, [], []⟩

/-! Byte-pattern literals of the DPI stages (ASCII codes). -/

def bytesGET : List ℕ := [71, 69, 84, 32]
def bytesPOST : List ℕ := [80, 79, 83, 84, 32]
def bytesHTTP : List ℕ := [72, 84, 84, 80, 47]
def bytesHost : List ℕ := [72, 111, 115, 116, 58]
def bytesSSH : List ℕ := [83, 83, 72, 45]
def bytesUserAgent : List ℕ := [85, 115, 101, 114, 45, 65, 103, 101, 110, 116, 58]
def bytesContentType : List ℕ := [67, 111, 110, 116, 101, 110, 116, 45, 84, 121, 112, 101, 58]
def bytesSMTP : List ℕ := [83, 77, 84, 80]
def bytesMAIL : List ℕ := [77, 65, 73, 76]

/-! ## First controller class of `enhanced_rule_controller.py` -/

/-- `EnhancedRuleController.attempt_dpi_classification` (first class):
HTTP request/header patterns give Browsing at 0.9, an SSH banner gives
SSH at 0.8, otherwise the stage reports no match at confidence 0. -/
def attempt_dpi_classification (pkt_data : List ℕ) : Option String × ℚ × String :=
  if List.IsInfix bytesGET pkt_data ∨ List.IsInfix bytesPOST pkt_data ∨
      List.IsInfix bytesHTTP pkt_data ∨ List.IsInfix bytesHost pkt_data then
    (some ("Browsing"), 9/10, "DPI")
  else if List.IsInfix bytesSSH pkt_data then
    (some ("SSH"), 4/5, "DPI")
  else
    (none, 0, "DPI_Failed")

/-- `EnhancedRuleController.port_based_classification` (first class). -/
def port_based_classification (features : Features) : Option String × ℚ × String :=
  let src_port := getNum features FKey.src_port
  let dst_port := getNum features FKey.dst_port
  if dst_port = 53 ∨ src_port = 53 then
    (some ("DNS"), 9/10, "Port-based")
  else if dst_port ∈ ([80, 443, 8080, 8443] : List ℚ) ∨
      src_port ∈ ([80, 443, 8080, 8443] : List ℚ) then
    (some ("Browsing"), 4/5, "Port-based")
  else if dst_port = 22 ∨ src_port = 22 then
    (some ("SSH"), 7/10, "Port-based")
  else if dst_port ∈ ([25, 587, 993, 995] : List ℚ) ∨
      src_port ∈ ([25, 587, 993, 995] : List ℚ) then
    (some ("Email"), 3/5, "Port-based")
  else if dst_port ∈ ([20, 21] : List ℚ) ∨ src_port ∈ ([20, 21] : List ℚ) then
    (some ("File-Transfer"), 3/5, "Port-based")
  else if (16384 ≤ dst_port ∧ dst_port ≤ 32768) ∨ (16384 ≤ src_port ∧ src_port ≤ 32768) then
    (some ("VOIP"), 1/2, "Port-based")
  else
    (none, 0, "Port-unknown")

/-- `EnhancedRuleController.statistical_classification` (first class). -/
def statistical_classification (features : Features) : Option String × ℚ × String :=
  let pkt_len := getNum features FKey.packet_length
  let avg_pkt_size := getNum features FKey.avg_packet_size
  let byte_rate := getNum features FKey.byte_rate
  if 1000 < avg_pkt_size ∧ 100000 < byte_rate then
    (some ("Video-Streaming"), 3/5, "Statistical")
  else if 1200 < avg_pkt_size ∧ 500000 < byte_rate then
    (some ("File-Transfer"), 3/5, "Statistical")
  else if pkt_len ≤ 64 then
    (some ("Chat"), 1/2, "Statistical")
  else if getStr features FKey.protocol_type = some ("ICMP") then
    (some ("ICMP"), 4/5, "Statistical")
  else
    (none, 0, "Statistical-unknown")

/-- `EnhancedRuleController.rule_based_classify_traffic` (first class):
the four-stage early-exit cascade (timing instrumentation dropped). -/
def rule_based_classify_traffic (pkt : Packet) (raw_features : Features) :
    Option String × ℚ × String :=
  let d := attempt_dpi_classification pkt.data
  if 7/10 < d.2.1 then d
  else
    let p := port_based_classification raw_features
    if 1/2 < p.2.1 then p
    else
      let s := statistical_classification raw_features
      if 2/5 < s.2.1 then s
      else if (getStr raw_features FKey.protocol_type).getD ("unknown") = "TCP" then
        (some ("TCP-Generic"), 3/10, "Protocol-fallback")
      else
        (some ("unknown"), 1/10, "No-classification")

def high_priority_classes_rule : List String :=
  ["DNS", "VOIP", "Video-Streaming", "Audio-Streaming", "Chat", "ICMP"]

def medium_priority_classes_rule : List String :=
  ["Browsing", "Email", "SSH"]

def low_priority_classes_rule : List String :=
  ["File-Transfer", "P2P", "Bulk", "TCP-Generic"]

/-- The tier-selection chain inside
`EnhancedRuleController.get_priority_from_rule_classification`. -/
def rule_base_priority (traffic_class : String) : ℤ :=
  if traffic_class ∈ high_priority_classes_rule then 3000
  else if traffic_class ∈ medium_priority_classes_rule then 2000
  else if traffic_class ∈ low_priority_classes_rule then 1000
  else 1000

/-- `EnhancedRuleController.get_priority_from_rule_classification`. -/
def get_priority_from_rule_classification (traffic_class : String) (confidence : ℚ) : ℤ :=
  min (rule_base_priority traffic_class + pyInt (confidence * 500)) 3500

/-! ## ML controller (`ml_enhanced_controller.py`): priority mapper -/

def high_priority_classes_ml : List String :=
  ["DNS", "VOIP", "Video-Streaming", "Audio-Streaming", "Chat"]

def medium_priority_classes_ml : List String :=
  ["Browsing", "Email", "SSH"]

def low_priority_classes_ml : List String :=
  ["File-Transfer", "P2P", "Bulk"]

/-- The tier-selection chain inside
`MLEnhancedController.get_priority_from_ml_classification`. -/
def ml_base_priority (traffic_class : String) : ℤ :=
  if traffic_class ∈ high_priority_classes_ml then 3000
  else if traffic_class ∈ medium_priority_classes_ml then 2000
  else if traffic_class ∈ low_priority_classes_ml then 1000
  else 1000

/-- `MLEnhancedController.get_priority_from_ml_classification`. -/
def get_priority_from_ml_classification (traffic_class : String) (confidence : ℚ) : ℤ :=
  min (ml_base_priority traffic_class + pyInt (confidence * 500)) 3500

/-! ## Feature extraction

`extract_flow_features` of each controller is split, exactly along the
source's two halves, into the header-driven part (instantaneous packet
attributes) and the flow-driven part (update of `self.flow_stats[flow_key]`
plus the derived flow features).  `prior` models
`flow_key in self.flow_stats`; `current_time` models `time.time()`. -/

/-- Lines 60–95 of `enhanced_rule_controller.py` (first class): packet and
protocol features. -/
def headerFeatures_rule (pkt : Packet) (in_port : ℕ) : Features :=
  let f := dictSet [] FKey.packet_length (FVal.num pkt.data.length)
  let f := dictSet f FKey.in_port (FVal.num in_port)
  match pkt.ipv4 with
  | none => f
  | some ip =>
    let f := dictSet f FKey.ip_proto (FVal.num ip.proto)
    let f := dictSet f FKey.ip_ttl (FVal.num ip.ttl)
    let f := dictSet f FKey.ip_len (FVal.num ip.total_length)
    let f := match pkt.tcpH with
      | none => f
      | some th =>
        let f := dictSet f FKey.src_port (FVal.num th.src_port)
        let f := dictSet f FKey.dst_port (FVal.num th.dst_port)
        let f := dictSet f FKey.tcp_flags (FVal.num th.bits)
        dictSet f FKey.protocol_type (FVal.str ("TCP"))
    let f := match pkt.udpH with
      | none => f
      | some uh =>
        let f := dictSet f FKey.src_port (FVal.num uh.src_port)
        let f := dictSet f FKey.dst_port (FVal.num uh.dst_port)
        dictSet f FKey.protocol_type (FVal.str ("UDP"))
    if pkt.icmpH then dictSet f FKey.protocol_type (FVal.str ("ICMP")) else f

/-- The inter-arrival window after one packet: appended only when
`last_packet_time` is truthy (both controllers share this logic). -/
def updatedIaTimes (st0 : FlowState) (current_time : ℚ) : List ℚ :=
  if st0.last_packet_time ≠ 0 then
    st0.inter_arrival_times ++ [current_time - st0.last_packet_time]
  else st0.inter_arrival_times

/-- The packet-size window after one packet (unconditionally appended). -/
def updatedSizes (st0 : FlowState) (pktLen : ℕ) : List ℚ :=
  st0.packet_sizes ++ [(pktLen : ℚ)]

/-- Lines 96–137 of `enhanced_rule_controller.py` (first class): flow-state
update and derived flow features.  The mean keys are set only when the
corresponding window holds more than one sample, and the rate keys only
when the duration is positive — otherwise they stay absent. -/
def addFlowFeatures_rule (f0 : Features) (pktLen : ℕ) (prior : Option FlowState)
    (current_time : ℚ) : Features × FlowState :=
  let st0 := prior.getD (freshFlowState current_time)
  let pc := st0.packet_count + 1
  let bc := st0.byte_count + pktLen
  let inter_arrival := current_time - st0.last_packet_time
  let iaList := updatedIaTimes st0 current_time
  let f := if st0.last_packet_time ≠ 0 then
      dictSet f0 FKey.inter_arrival_time (FVal.num inter_arrival) else f0
  let sizes := updatedSizes st0 pktLen
  let flow_duration := current_time - st0.start_time
  let f := dictSet f FKey.flow_duration (FVal.num flow_duration)
  let f := dictSet f FKey.flow_packet_count (FVal.num pc)
  let f := dictSet f FKey.flow_byte_count (FVal.num bc)
  let f := if 1 < iaList.length then
      dictSet f FKey.avg_inter_arrival (FVal.num (qMean iaList)) else f
  let f := if 1 < sizes.length then
      dictSet f FKey.avg_packet_size (FVal.num (qMean sizes)) else f
  let f := if 0 < flow_duration then
      dictSet (dictSet f FKey.packet_rate (FVal.num (pc / flow_duration)))
        FKey.byte_rate (FVal.num (bc / flow_duration))
    else f
  (f, ⟨pc, bc, st0.start_time, current_time, iaList, sizes⟩)

/-- `EnhancedRuleController.extract_flow_features` (first class). -/
def extract_flow_features_rule (pkt : Packet) (in_port : ℕ) (prior : Option FlowState)
    (current_time : ℚ) : Features × FlowState :=
  addFlowFeatures_rule (headerFeatures_rule pkt in_port) pkt.data.length prior current_time

/-- Lines 100–139 of `ml_enhanced_controller.py`: packet and protocol
features, including the decomposed TCP flag bits. -/
def headerFeatures_ml (pkt : Packet) (in_port : ℕ) : Features :=
  let f := dictSet [] FKey.packet_length (FVal.num pkt.data.length)
  let f := dictSet f FKey.in_port (FVal.num in_port)
  match pkt.ipv4 with
  | none => f
  | some ip =>
    let f := dictSet f FKey.ip_proto (FVal.num ip.proto)
    let f := dictSet f FKey.ip_ttl (FVal.num ip.ttl)
    let f := dictSet f FKey.ip_len (FVal.num ip.total_length)
    let f := dictSet f FKey.ip_flags (FVal.num ip.flags)
    let f := match pkt.tcpH with
      | none => f
      | some th =>
        let f := dictSet f FKey.src_port (FVal.num th.src_port)
        let f := dictSet f FKey.dst_port (FVal.num th.dst_port)
        let f := dictSet f FKey.tcp_window (FVal.num th.window_size)
        let f := dictSet f FKey.tcp_flags (FVal.num th.bits)
        let f := dictSet f FKey.tcp_fin (FVal.num (if Nat.land th.bits 1 ≠ 0 then 1 else 0))
        let f := dictSet f FKey.tcp_syn (FVal.num (if Nat.land th.bits 2 ≠ 0 then 1 else 0))
        let f := dictSet f FKey.tcp_rst (FVal.num (if Nat.land th.bits 4 ≠ 0 then 1 else 0))
        let f := dictSet f FKey.tcp_psh (FVal.num (if Nat.land th.bits 8 ≠ 0 then 1 else 0))
        let f := dictSet f FKey.tcp_ack (FVal.num (if Nat.land th.bits 16 ≠ 0 then 1 else 0))
        dictSet f FKey.tcp_urg (FVal.num (if Nat.land th.bits 32 ≠ 0 then 1 else 0))
    match pkt.udpH with
    | none => f
    | some uh =>
      let f := dictSet f FKey.src_port (FVal.num uh.src_port)
      let f := dictSet f FKey.dst_port (FVal.num uh.dst_port)
      dictSet f FKey.udp_len (FVal.num uh.total_length)

/-- Lines 140–195 of `ml_enhanced_controller.py`: flow-state update and
derived flow features; every branch here has an `else` that stores a
default, with `avg_packet_size` defaulting to `len(pkt.data)`.  `sq` stands
for the real square root inside `np.std`. -/
def addFlowFeatures_ml (sq : ℚ → ℚ) (f0 : Features) (pktLen : ℕ) (prior : Option FlowState)
    (current_time : ℚ) : Features × FlowState :=
  let st0 := prior.getD (freshFlowState current_time)
  let pc := st0.packet_count + 1
  let bc := st0.byte_count + pktLen
  let inter_arrival := current_time - st0.last_packet_time
  let iaList := updatedIaTimes st0 current_time
  let f := if st0.last_packet_time ≠ 0 then
      dictSet f0 FKey.inter_arrival_time (FVal.num inter_arrival)
    else dictSet f0 FKey.inter_arrival_time (FVal.num 0)
  let sizes := updatedSizes st0 pktLen
  let flow_duration := current_time - st0.start_time
  let f := dictSet f FKey.flow_duration (FVal.num flow_duration)
  let f := dictSet f FKey.flow_packet_count (FVal.num pc)
  let f := dictSet f FKey.flow_byte_count (FVal.num bc)
  let f := if 1 < iaList.length then
      dictSet (dictSet f FKey.avg_inter_arrival (FVal.num (qMean iaList)))
        FKey.std_inter_arrival (FVal.num (sq (qVar iaList)))
    else dictSet (dictSet f FKey.avg_inter_arrival (FVal.num 0))
        FKey.std_inter_arrival (FVal.num 0)
  let f := if 1 < sizes.length then
      dictSet (dictSet f FKey.avg_packet_size (FVal.num (qMean sizes)))
        FKey.std_packet_size (FVal.num (sq (qVar sizes)))
    else dictSet (dictSet f FKey.avg_packet_size (FVal.num pktLen))
        FKey.std_packet_size (FVal.num 0)
  let f := if 0 < flow_duration then
      dictSet (dictSet f FKey.packet_rate (FVal.num (pc / flow_duration)))
        FKey.byte_rate (FVal.num (bc / flow_duration))
    else dictSet (dictSet f FKey.packet_rate (FVal.num 0)) FKey.byte_rate (FVal.num 0)
  (f, ⟨pc, bc, st0.start_time, current_time, iaList, sizes⟩)

/-- `MLEnhancedController.extract_flow_features`. -/
def extract_flow_features_ml (sq : ℚ → ℚ) (pkt : Packet) (in_port : ℕ)
    (prior : Option FlowState) (current_time : ℚ) : Features × FlowState :=
  addFlowFeatures_ml sq (headerFeatures_ml pkt in_port) pkt.data.length prior current_time

/-! ## Second controller class of `enhanced_rule_controller.py`

The file defines `EnhancedRuleController` twice; the second definition
(lines 366–643) uses a different arbitration policy: it gathers the
candidates of all four stages and keeps the highest-confidence one. -/

/-- `attempt_dpi_classification` of the second class (lines 401–433). -/
def attempt_dpi_classification_v2 (pkt_data : List ℕ) : String × ℚ :=
  if List.IsInfix bytesGET pkt_data ∨ List.IsInfix bytesPOST pkt_data ∨
      List.IsInfix bytesHTTP pkt_data ∨ List.IsInfix bytesHost pkt_data ∨
      List.IsInfix bytesUserAgent pkt_data ∨ List.IsInfix bytesContentType pkt_data then
    ("web_traffic", 9/10)
  else if List.IsInfix bytesSSH pkt_data then
    ("ssh_traffic", 4/5)
  else if List.IsInfix bytesSMTP pkt_data ∨ List.IsInfix bytesMAIL pkt_data then
    ("email_traffic", 7/10)
  else
    ("unknown", 0)

/-- `port_based_classification` of the second class (lines 435–473); takes
the parsed TCP/UDP headers directly, TCP checked first with `elif`. -/
def port_based_classification_v2 (tcpH : Option TcpHeader) (udpH : Option UdpHeader) :
    String × ℚ :=
  match tcpH with
  | some th =>
    if th.dst_port ∈ ([80, 443, 8080, 8443] : List ℕ) ∨
        th.src_port ∈ ([80, 443, 8080, 8443] : List ℕ) then ("web_traffic", 4/5)
    else if th.dst_port = 22 ∨ th.src_port = 22 then ("ssh_traffic", 7/10)
    else if th.dst_port ∈ ([25, 587, 993, 995] : List ℕ) ∨
        th.src_port ∈ ([25, 587, 993, 995] : List ℕ) then ("email_traffic", 3/5)
    else if th.dst_port ∈ ([20, 21] : List ℕ) ∨ th.src_port ∈ ([20, 21] : List ℕ) then
      ("ftp_traffic", 1/2)
    else if (27015 ≤ th.dst_port ∧ th.dst_port < 27030) ∨
        (27015 ≤ th.src_port ∧ th.src_port < 27030) then ("gaming_traffic", 4/5)
    else ("unknown", 0)
  | none =>
    match udpH with
    | some uh =>
      if uh.dst_port = 53 ∨ uh.src_port = 53 then ("dns_traffic", 9/10)
      else if (16384 ≤ uh.dst_port ∧ uh.dst_port < 32768) ∨
          (16384 ≤ uh.src_port ∧ uh.src_port < 32768) then ("voip_traffic", 7/10)
      else ("unknown", 0)
    | none => ("unknown", 0)

/-- `statistical_flow_analysis` of the second class (lines 475–502). -/
def statistical_flow_analysis (pkt : Packet) (tcpH : Option TcpHeader)
    (udpH : Option UdpHeader) : String × ℚ :=
  let pkt_len := pkt.data.length
  if pkt_len ≤ 64 then ("control_traffic", 3/5)
  else if 1400 ≤ pkt_len then ("bulk_traffic", 2/5)
  else
    match tcpH with
    | some th =>
      if Nat.land th.bits 2 ≠ 0 then ("connection_setup", 7/10)
      else if th.bits = 16 then ("interactive_traffic", 3/5)
      else ("unknown", 0)
    | none =>
      match udpH with
      | some _ => ("realtime_traffic", 1/2)
      | none => ("unknown", 0)

/-- `protocol_based_classification` of the second class (lines 504–522). -/
def protocol_based_classification (pkt : Packet) : String × ℚ :=
  match pkt.ipv4 with
  | none => ("non_ip", 1/10)
  | some ip =>
    if ip.proto = 6 then ("tcp_traffic", 1/2)
    else if ip.proto = 17 then ("udp_traffic", 2/5)
    else if ip.proto = 1 then ("icmp_traffic", 4/5)
    else ("other_protocol", 1/5)

/-- Python `max(classifications, key=conf)`: scan left to right, replacing
the current best only on strictly greater confidence. -/
def maxByConf (first : String × ℚ × String) (rest : List (String × ℚ × String)) :
    String × ℚ × String :=
  rest.foldl (fun best x => if best.2.1 < x.2.1 then x else best) first

/-- `classify_traffic` of the second class (lines 524–556): run all four
stages, keep each candidate with positive confidence, return the
highest-confidence one (the method tag is printed, not returned). -/
def classify_traffic (pkt : Packet) (pkt_data : List ℕ) : String × ℚ :=
  let dpi := attempt_dpi_classification_v2 pkt_data
  let port := port_based_classification_v2 pkt.tcpH pkt.udpH
  let stat := statistical_flow_analysis pkt pkt.tcpH pkt.udpH
  let proto := protocol_based_classification pkt
  let classifications :=
    (if 0 < dpi.2 then [(dpi.1, dpi.2, "DPI")] else []) ++
    (if 0 < port.2 then [(port.1, port.2, "Port")] else []) ++
    (if 0 < stat.2 then [(stat.1, stat.2, "Statistical")] else []) ++
    [(proto.1, proto.2, "Protocol")]
  match classifications with
  | [] => ("unknown", 0)
  | c :: rest =>
    let best := maxByConf c rest
    (best.1, best.2.1)

/-! ## ML classification path of `ml_enhanced_controller.py` -/

/-- The 23-name feature schema of `prepare_features_for_model`. -/
def expected_features : List FKey :=
  [FKey.packet_length, FKey.ip_proto, FKey.ip_ttl, FKey.ip_len, FKey.src_port,
   FKey.dst_port, FKey.tcp_window, FKey.tcp_flags, FKey.tcp_fin, FKey.tcp_syn,
   FKey.tcp_rst, FKey.tcp_psh, FKey.tcp_ack, FKey.tcp_urg, FKey.flow_duration,
   FKey.flow_packet_count, FKey.flow_byte_count, FKey.avg_inter_arrival,
   FKey.std_inter_arrival, FKey.avg_packet_size, FKey.std_packet_size,
   FKey.packet_rate, FKey.byte_rate]

/-- The `feature_dict` built inside `prepare_features_for_model`:
`raw_features.get(feature, 0)` for every expected feature name. -/
def model_feature_dict (raw_features : Features) : List (FKey × ℚ) :=
  expected_features.map (fun k => (k, getNum raw_features k))

/-- `MLEnhancedController.prepare_features_for_model`: the row vector
handed to the scaler and model. -/
def prepare_features_for_model (raw_features : Features) : List ℚ :=
  (model_feature_dict raw_features).map Prod.snd

/-- Outcome of the opaque model-scoring attempt inside
`ml_classify_traffic`: the bundle may be unloaded, feature preparation may
fail, scoring may raise, or the model produces a label and a confidence. -/
inductive MLOutcome where
  | notLoaded
  | prepFailed
  | scoreError (msg : String)
  | success (label : String) (conf : ℚ)
deriving DecidableEq

/-- `MLEnhancedController.ml_classify_traffic`: every failure path returns
the fixed low-confidence triple instead of raising. -/
def ml_classify_traffic (o : MLOutcome) : String × ℚ × String :=
  match o with
  | MLOutcome.notLoaded => ("unknown", 1/10, "ML model not loaded")
  | MLOutcome.prepFailed => ("unknown", 1/10, "Feature preparation failed")
  | MLOutcome.scoreError e => ("unknown", 1/10, "ML error: " ++ e)
  | MLOutcome.success l c => (l, c, "ML prediction")

/-- `MLEnhancedController.fallback_classify_traffic`: the port-based
fallback used when the model path yields low confidence. -/
def fallback_classify_traffic (raw_features : Features) : String × ℚ × String :=
  let src_port := getNum raw_features FKey.src_port
  let dst_port := getNum raw_features FKey.dst_port
  if dst_port ∈ ([80, 443, 8080, 8443] : List ℚ) ∨
      src_port ∈ ([80, 443, 8080, 8443] : List ℚ) then
    ("Browsing", 7/10, "Port-based fallback")
  else if dst_port = 53 ∨ src_port = 53 then
    ("DNS", 4/5, "Port-based fallback")
  else if dst_port = 22 ∨ src_port = 22 then
    ("SSH", 7/10, "Port-based fallback")
  else
    ("unknown", 3/10, "Fallback classification")

/-- Lines 357–362 of `packet_in_handler`: take the ML result, and when its
confidence is below 0.3 replace it by the fallback classification with the
method tag prefixed by `Fallback after ML:`. -/
def handler_classification (o : MLOutcome) (raw_features : Features) :
    String × ℚ × String :=
  let r := ml_classify_traffic o
  if r.2.1 < 3/10 then
    let fb := fallback_classify_traffic raw_features
    (fb.1, fb.2.1, "Fallback after ML: " ++ fb.2.2)
  else r

/-! ## Theorems -/

theorem rule_base_priority_ge (c : String) : 1000 ≤ rule_base_priority c := by
  unfold rule_base_priority
  split_ifs <;> norm_num

theorem rule_base_priority_le (c : String) : rule_base_priority c ≤ 3000 := by
  unfold rule_base_priority
  split_ifs <;> norm_num

theorem ml_base_priority_ge (c : String) : 1000 ≤ ml_base_priority c := by
  unfold ml_base_priority
  split_ifs <;> norm_num

theorem ml_base_priority_le (c : String) : ml_base_priority c ≤ 3000 := by
  unfold ml_base_priority
  split_ifs <;> norm_num

/-- C1: for every traffic class and every confidence in [0,1], both priority
mappers return `min(base + floor(confidence × 500), 3500)` — the base being
3000/2000/1000 for the high/medium/low tier lists and 1000 by default — and
the returned priority lies in [0, 3500]. -/
theorem C1_priority_clamp (c : String) (conf : ℚ) (h0 : 0 ≤ conf) (_h1 : conf ≤ 1) :
    (get_priority_from_rule_classification c conf
        = min (rule_base_priority c + ⌊conf * 500⌋) 3500
      ∧ 0 ≤ get_priority_from_rule_classification c conf
      ∧ get_priority_from_rule_classification c conf ≤ 3500)
    ∧ (get_priority_from_ml_classification c conf
        = min (ml_base_priority c + ⌊conf * 500⌋) 3500
      ∧ 0 ≤ get_priority_from_ml_classification c conf
      ∧ get_priority_from_ml_classification c conf ≤ 3500) := by
  have hc : (0:ℚ) ≤ conf * 500 := by positivity
  have hfl : pyInt (conf * 500) = ⌊conf * 500⌋ := pyInt_eq_floor _ hc
  have hge : (0:ℤ) ≤ ⌊conf * 500⌋ := Int.floor_nonneg.mpr hc
  refine ⟨⟨?_, ?_, ?_⟩, ⟨?_, ?_, ?_⟩⟩
  · rw [get_priority_from_rule_classification, hfl]
  · rw [get_priority_from_rule_classification, hfl]
    exact le_min (by linarith [rule_base_priority_ge c]) (by norm_num)
  · exact min_le_right _ _
  · rw [get_priority_from_ml_classification, hfl]
  · rw [get_priority_from_ml_classification, hfl]
    exact le_min (by linarith [ml_base_priority_ge c]) (by norm_num)
  · exact min_le_right _ _

theorem C1_priority_clamp_witness :
    get_priority_from_rule_classification ("DNS") (1/2) = 3250
    ∧ get_priority_from_ml_classification ("DNS") (1/2) = 3250 := by
  have h := C1_priority_clamp ("DNS") (1/2) (by norm_num) (by norm_num)
  have h250 : (⌊(1/2 : ℚ) * 500⌋ : ℤ) = 250 := by norm_num
  have hr : rule_base_priority ("DNS") = 3000 := by decide
  have hm : ml_base_priority ("DNS") = 3000 := by decide
  refine ⟨?_, ?_⟩
  · rw [h.1.1, h250, hr]
    decide
  · rw [h.2.1, h250, hm]
    decide

/-- C10: for every traffic class and every nonnegative confidence, both
priority mappers return at least 1000, since every tier base is at least
1000 and the confidence boost is nonnegative. -/
theorem C10_priority_floor (c : String) (conf : ℚ) (h0 : 0 ≤ conf) :
    1000 ≤ get_priority_from_rule_classification c conf
    ∧ 1000 ≤ get_priority_from_ml_classification c conf := by
  have hc : (0:ℚ) ≤ conf * 500 := by positivity
  have hge : (0:ℤ) ≤ pyInt (conf * 500) := by
    rw [pyInt_eq_floor _ hc]
    exact Int.floor_nonneg.mpr hc
  constructor
  · rw [get_priority_from_rule_classification]
    exact le_min (by linarith [rule_base_priority_ge c]) (by norm_num)
  · rw [get_priority_from_ml_classification]
    exact le_min (by linarith [ml_base_priority_ge c]) (by norm_num)

theorem C10_priority_floor_witness :
    1000 ≤ get_priority_from_rule_classification ("P2P") 0
    ∧ 1000 ≤ get_priority_from_ml_classification ("P2P") 0 :=
  C10_priority_floor ("P2P") 0 le_rfl

theorem dpi_pos_some (l : List ℕ) :
    0 < (attempt_dpi_classification l).2.1 → (attempt_dpi_classification l).1.isSome := by
  unfold attempt_dpi_classification
  split_ifs <;> simp

theorem port_pos_some (fv : Features) :
    0 < (port_based_classification fv).2.1 → (port_based_classification fv).1.isSome := by
  simp only [port_based_classification]
  intro h
  split_ifs at h ⊢ <;> simp_all

theorem stat_pos_some (fv : Features) :
    0 < (statistical_classification fv).2.1 → (statistical_classification fv).1.isSome := by
  simp only [statistical_classification]
  intro h
  split_ifs at h ⊢ <;> simp_all

/-- C2 (amended): the first controller's `rule_based_classify_traffic` is
the early-exit cascade exactly as claimed — the DPI stage is accepted above
0.7, otherwise the port stage above 0.5, otherwise the statistical stage
above 0.4, otherwise the protocol fallback which always yields a definite
classification — and the pipeline always produces a labelled result.  (The
second controller's `classify_traffic` instead keeps the globally best
confidence; see the counterexample.) -/
theorem C2_cascade (pkt : Packet) (fv : Features) :
    ((7/10 : ℚ) < (attempt_dpi_classification pkt.data).2.1 →
      rule_based_classify_traffic pkt fv = attempt_dpi_classification pkt.data)
    ∧ ((attempt_dpi_classification pkt.data).2.1 ≤ 7/10 →
        (1/2 : ℚ) < (port_based_classification fv).2.1 →
      rule_based_classify_traffic pkt fv = port_based_classification fv)
    ∧ ((attempt_dpi_classification pkt.data).2.1 ≤ 7/10 →
        (port_based_classification fv).2.1 ≤ 1/2 →
        (2/5 : ℚ) < (statistical_classification fv).2.1 →
      rule_based_classify_traffic pkt fv = statistical_classification fv)
    ∧ ((attempt_dpi_classification pkt.data).2.1 ≤ 7/10 →
        (port_based_classification fv).2.1 ≤ 1/2 →
        (statistical_classification fv).2.1 ≤ 2/5 →
      rule_based_classify_traffic pkt fv =
        (if (getStr fv FKey.protocol_type).getD ("unknown") = "TCP"
         then (some ("TCP-Generic"), 3/10, "Protocol-fallback")
         else (some ("unknown"), 1/10, "No-classification")))
    ∧ (rule_based_classify_traffic pkt fv).1.isSome := by
  refine ⟨?_, ?_, ?_, ?_, ?_⟩
  · intro h1
    simp only [rule_based_classify_traffic]
    rw [if_pos h1]
  · intro h1 h2
    simp only [rule_based_classify_traffic]
    rw [if_neg (not_lt.mpr h1), if_pos h2]
  · intro h1 h2 h3
    simp only [rule_based_classify_traffic]
    rw [if_neg (not_lt.mpr h1), if_neg (not_lt.mpr h2), if_pos h3]
  · intro h1 h2 h3
    simp only [rule_based_classify_traffic]
    rw [if_neg (not_lt.mpr h1), if_neg (not_lt.mpr h2), if_neg (not_lt.mpr h3)]
  · simp only [rule_based_classify_traffic]
    by_cases h1 : (7/10 : ℚ) < (attempt_dpi_classification pkt.data).2.1
    · rw [if_pos h1]
      exact dpi_pos_some _ (lt_trans (by norm_num) h1)
    · rw [if_neg h1]
      by_cases h2 : (1/2 : ℚ) < (port_based_classification fv).2.1
      · rw [if_pos h2]
        exact port_pos_some _ (lt_trans (by norm_num) h2)
      · rw [if_neg h2]
        by_cases h3 : (2/5 : ℚ) < (statistical_classification fv).2.1
        · rw [if_pos h3]
          exact stat_pos_some _ (lt_trans (by norm_num) h3)
        · rw [if_neg h3]
          split_ifs <;> simp

def pktEmpty : Packet := ⟨[], none, none, none, false⟩

def fvSsh : Features := dictSet [] FKey.dst_port (FVal.num 22)

theorem C2_cascade_witness :
    rule_based_classify_traffic pktEmpty fvSsh = (some ("SSH"), 7/10, "Port-based") := by
  have hde : attempt_dpi_classification pktEmpty.data = (none, 0, "DPI_Failed") := by
    unfold attempt_dpi_classification pktEmpty
    rw [if_neg (by decide), if_neg (by decide)]
  have hpe : port_based_classification fvSsh = (some ("SSH"), 7/10, "Port-based") := by
    simp [port_based_classification, fvSsh, getNum, numVal]
  have h := (C2_cascade pktEmpty fvSsh).2.1 (by rw [hde]; norm_num) (by rw [hpe]; norm_num)
  rw [h, hpe]

/-- The packet of the C2 counterexample: a UDP datagram to port 53 whose
payload carries an SSH banner. -/
def pkt0data : List ℕ := [83, 83, 72, 45, 50, 46, 48]

def pkt0 : Packet := ⟨pkt0data, some ⟨17, 64, 35, 0⟩, none, some ⟨1024, 53, 15⟩, false⟩

/-- C2 (counterexample): on `pkt0`, the DPI stage of the second
controller's pipeline exceeds its acceptance threshold (confidence 0.8 >
0.7), yet `classify_traffic` does evaluate the later stages and returns the
port stage's higher-confidence result instead of the DPI result. -/
theorem C2_counterexample :
    (7/10 : ℚ) < (attempt_dpi_classification_v2 pkt0data).2
    ∧ classify_traffic pkt0 pkt0data
        ≠ ((attempt_dpi_classification_v2 pkt0data).1, (attempt_dpi_classification_v2 pkt0data).2)
    ∧ classify_traffic pkt0 pkt0data = ("dns_traffic", 9/10) := by
  have hdpi : attempt_dpi_classification_v2 pkt0data = ("ssh_traffic", 4/5) := by
    unfold attempt_dpi_classification_v2
    rw [if_neg (by decide), if_pos (by decide)]
  have hport : port_based_classification_v2 pkt0.tcpH pkt0.udpH = ("dns_traffic", 9/10) := by
    simp [port_based_classification_v2, pkt0]
  have hstat : statistical_flow_analysis pkt0 pkt0.tcpH pkt0.udpH = ("control_traffic", 3/5) := by
    simp [statistical_flow_analysis, pkt0, pkt0data]
  have hproto : protocol_based_classification pkt0 = ("udp_traffic", 2/5) := by
    simp [protocol_based_classification, pkt0]
  have hc : classify_traffic pkt0 pkt0data = ("dns_traffic", 9/10) := by
    simp only [classify_traffic]
    rw [hdpi, hport, hstat, hproto]
    norm_num [maxByConf]
  refine ⟨?_, ?_, ?_⟩
  · rw [hdpi]
    norm_num
  · rw [hc, hdpi]
    simp
  · exact hc

/-- C3: whenever the model bundle failed to load, feature preparation or
scoring raised, or the model's confidence is below the fixed threshold 0.3,
the handler's classification step invokes the port-table fallback
classifier and returns its classification with the method tagged
`Fallback after ML:` — it never leaves the caller without a result. -/
theorem C3_ml_fallback (o : MLOutcome) (fv : Features)
    (h : o = MLOutcome.notLoaded ∨ o = MLOutcome.prepFailed ∨
      (∃ e, o = MLOutcome.scoreError e) ∨
      ∃ l c, o = MLOutcome.success l c ∧ c < 3/10) :
    handler_classification o fv
      = ((fallback_classify_traffic fv).1, (fallback_classify_traffic fv).2.1,
         "Fallback after ML: " ++ (fallback_classify_traffic fv).2.2) := by
  rcases h with h | h | ⟨e, h⟩ | ⟨l, c, h, hc⟩ <;> subst h
  · simp only [handler_classification, ml_classify_traffic]
    rw [if_pos (by norm_num)]
  · simp only [handler_classification, ml_classify_traffic]
    rw [if_pos (by norm_num)]
  · simp only [handler_classification, ml_classify_traffic]
    rw [if_pos (by norm_num)]
  · simp only [handler_classification, ml_classify_traffic]
    rw [if_pos hc]

theorem C3_ml_fallback_witness :
    handler_classification MLOutcome.notLoaded []
      = ("unknown", 3/10, "Fallback after ML: Fallback classification") := by
  have h := C3_ml_fallback MLOutcome.notLoaded [] (Or.inl rfl)
  rw [h]
  simp [fallback_classify_traffic, getNum]

/-- C5 (amended): on a feature vector with mean packet size 1500 and byte
rate 600000, the statistical stage returns `Video-Streaming` at confidence
0.6 — the video branch (mean > 1000 and rate > 100000) fires before the
bulk branch can be reached. -/
theorem C5_statistical_video (fv : Features)
    (h1 : getNum fv FKey.avg_packet_size = 1500)
    (h2 : getNum fv FKey.byte_rate = 600000) :
    statistical_classification fv = (some ("Video-Streaming"), 3/5, "Statistical") := by
  simp only [statistical_classification]
  rw [h1, h2, if_pos (by norm_num)]

def fvBulk : Features :=
  dictSet (dictSet [] FKey.avg_packet_size (FVal.num 1500)) FKey.byte_rate (FVal.num 600000)

theorem C5_statistical_video_witness :
    statistical_classification fvBulk = (some ("Video-Streaming"), 3/5, "Statistical") :=
  C5_statistical_video fvBulk (by simp [fvBulk, getNum, numVal])
    (by simp [fvBulk, getNum, numVal])

/-- C5 (counterexample): with mean packet size 1500 and byte rate 600000
the statistical stage returns `Video-Streaming`, which is neither
`File-Transfer` nor any class of the code's own bulk (low-priority) tier. -/
theorem C5_counterexample :
    statistical_classification fvBulk = (some ("Video-Streaming"), 3/5, "Statistical")
    ∧ ("Video-Streaming") ∉ low_priority_classes_rule
    ∧ (some ("Video-Streaming") : Option String) ≠ some ("File-Transfer") := by
  refine ⟨?_, by decide, by decide⟩
  simp only [statistical_classification]
  rw [show getNum fvBulk FKey.avg_packet_size = 1500 from by simp [fvBulk, getNum, numVal],
    show getNum fvBulk FKey.byte_rate = 600000 from by simp [fvBulk, getNum, numVal],
    if_pos (by norm_num)]

/-- The port table the ML fallback actually implements, written directly on
the two transport ports (the comparison definition for the refinement
claim): web ports → Browsing 0.7, port 53 → DNS 0.8, port 22 → SSH 0.7,
anything else → unknown 0.3. -/
def fallback_port_table_spec (src_port dst_port : ℚ) : String × ℚ × String :=
  if dst_port ∈ ([80, 443, 8080, 8443] : List ℚ) ∨
      src_port ∈ ([80, 443, 8080, 8443] : List ℚ) then
    ("Browsing", 7/10, "Port-based fallback")
  else if dst_port = 53 ∨ src_port = 53 then
    ("DNS", 4/5, "Port-based fallback")
  else if dst_port = 22 ∨ src_port = 22 then
    ("SSH", 7/10, "Port-based fallback")
  else
    ("unknown", 3/10, "Fallback classification")

/-- C6 (amended): the model path's fallback is a pure function of the
feature vector's two transport ports, but it implements its own smaller
port table (`fallback_port_table_spec`) rather than the rule classifier's
port-table stage: the two differ in confidences and coverage. -/
theorem C6_fallback_table (fv : Features) :
    fallback_classify_traffic fv
      = fallback_port_table_spec (getNum fv FKey.src_port) (getNum fv FKey.dst_port) := rfl

def fvDns : Features := dictSet [] FKey.dst_port (FVal.num 53)

/-- C6 (counterexample): on destination port 53 the ML fallback returns DNS
at confidence 0.8 while the rule classifier's port-table stage returns DNS
at confidence 0.9 — the two functions are not equal. -/
theorem C6_counterexample :
    fallback_classify_traffic fvDns = ("DNS", 4/5, "Port-based fallback")
    ∧ port_based_classification fvDns = (some ("DNS"), 9/10, "Port-based")
    ∧ (fallback_classify_traffic fvDns).2.1 ≠ (port_based_classification fvDns).2.1 := by
  have h1 : fallback_classify_traffic fvDns = ("DNS", 4/5, "Port-based fallback") := by
    simp [fallback_classify_traffic, fvDns, getNum, numVal]
  have h2 : port_based_classification fvDns = (some ("DNS"), 9/10, "Port-based") := by
    simp [port_based_classification, fvDns, getNum, numVal]
  refine ⟨h1, h2, ?_⟩
  rw [h1, h2]
  norm_num

/-- C7: on any packet whose payload matches no DPI signature and whose
feature vector carries destination port 53, the cascade returns DNS at
confidence 0.9 from the port-table stage, and the resulting priority is
`min(3000 + 450, 3500) = 3450`. -/
theorem C7_dns_priority (pkt : Packet) (fv : Features)
    (hd : attempt_dpi_classification pkt.data = (none, 0, "DPI_Failed"))
    (h53 : getNum fv FKey.dst_port = 53) :
    rule_based_classify_traffic pkt fv = (some ("DNS"), 9/10, "Port-based")
    ∧ get_priority_from_rule_classification ("DNS") (9/10) = 3450
    ∧ (min (3000 + 450) 3500 : ℤ) = 3450 := by
  have hp : port_based_classification fv = (some ("DNS"), 9/10, "Port-based") := by
    simp only [port_based_classification]
    rw [h53, if_pos (Or.inl rfl)]
  refine ⟨?_, ?_, by decide⟩
  · simp only [rule_based_classify_traffic]
    rw [if_neg (by rw [hd]; norm_num), if_pos (by rw [hp]; norm_num), hp]
  · have hb : pyInt ((9:ℚ)/10 * 500) = 450 := by
      rw [pyInt_eq_floor _ (by norm_num)]
      norm_num
    rw [get_priority_from_rule_classification, hb,
      show rule_base_priority ("DNS") = 3000 from by decide]
    decide

theorem C7_dns_priority_witness :
    rule_based_classify_traffic pktEmpty fvDns = (some ("DNS"), 9/10, "Port-based")
    ∧ get_priority_from_rule_classification ("DNS") (9/10) = 3450 := by
  have hd : attempt_dpi_classification pktEmpty.data = (none, 0, "DPI_Failed") := by
    unfold attempt_dpi_classification pktEmpty
    rw [if_neg (by decide), if_neg (by decide)]
  have h53 : getNum fvDns FKey.dst_port = 53 := by simp [fvDns, getNum, numVal]
  have h := C7_dns_priority pktEmpty fvDns hd h53
  exact ⟨h.1, h.2.1⟩

/-! Lookup characterizations of the flow sections: the flow part never
touches `src_port`, and it stores the window statistics exactly as the
length guards dictate. -/

theorem addFlow_ml_lookup_src (sq : ℚ → ℚ) (f0 : Features) (len : ℕ)
    (pr : Option FlowState) (t : ℚ) :
    List.lookup FKey.src_port (addFlowFeatures_ml sq f0 len pr t).1
      = List.lookup FKey.src_port f0 := by
  simp only [addFlowFeatures_ml]
  split_ifs <;> simp [lookup_dictSet_ne]

theorem addFlow_rule_lookup_src (f0 : Features) (len : ℕ)
    (pr : Option FlowState) (t : ℚ) :
    List.lookup FKey.src_port (addFlowFeatures_rule f0 len pr t).1
      = List.lookup FKey.src_port f0 := by
  simp only [addFlowFeatures_rule]
  split_ifs <;> simp [lookup_dictSet_ne]

theorem addFlow_ml_lookup_ia (sq : ℚ → ℚ) (f0 : Features) (len : ℕ)
    (pr : Option FlowState) (t : ℚ) :
    List.lookup FKey.inter_arrival_time (addFlowFeatures_ml sq f0 len pr t).1
      = some (FVal.num (if (pr.getD (freshFlowState t)).last_packet_time ≠ 0
          then t - (pr.getD (freshFlowState t)).last_packet_time else 0)) := by
  simp only [addFlowFeatures_ml]
  split_ifs <;> simp [lookup_dictSet_ne, lookup_dictSet_self]

theorem addFlow_rule_lookup_ia (f0 : Features) (len : ℕ)
    (pr : Option FlowState) (t : ℚ) :
    List.lookup FKey.inter_arrival_time (addFlowFeatures_rule f0 len pr t).1
      = (if (pr.getD (freshFlowState t)).last_packet_time ≠ 0
          then some (FVal.num (t - (pr.getD (freshFlowState t)).last_packet_time))
          else List.lookup FKey.inter_arrival_time f0) := by
  simp only [addFlowFeatures_rule]
  split_ifs <;> simp [lookup_dictSet_ne, lookup_dictSet_self]

theorem addFlow_ml_lookup_avg_ia (sq : ℚ → ℚ) (f0 : Features) (len : ℕ)
    (pr : Option FlowState) (t : ℚ) :
    List.lookup FKey.avg_inter_arrival (addFlowFeatures_ml sq f0 len pr t).1
      = some (FVal.num (if 1 < (updatedIaTimes (pr.getD (freshFlowState t)) t).length
          then qMean (updatedIaTimes (pr.getD (freshFlowState t)) t) else 0)) := by
  simp only [addFlowFeatures_ml]
  split_ifs <;> simp [lookup_dictSet_ne, lookup_dictSet_self]

theorem addFlow_ml_lookup_std_ia (sq : ℚ → ℚ) (f0 : Features) (len : ℕ)
    (pr : Option FlowState) (t : ℚ) :
    List.lookup FKey.std_inter_arrival (addFlowFeatures_ml sq f0 len pr t).1
      = some (FVal.num (if 1 < (updatedIaTimes (pr.getD (freshFlowState t)) t).length
          then sq (qVar (updatedIaTimes (pr.getD (freshFlowState t)) t)) else 0)) := by
  simp only [addFlowFeatures_ml]
  split_ifs <;> simp [lookup_dictSet_ne, lookup_dictSet_self]

theorem addFlow_ml_lookup_avg_size (sq : ℚ → ℚ) (f0 : Features) (len : ℕ)
    (pr : Option FlowState) (t : ℚ) :
    List.lookup FKey.avg_packet_size (addFlowFeatures_ml sq f0 len pr t).1
      = some (FVal.num (if 1 < (updatedSizes (pr.getD (freshFlowState t)) len).length
          then qMean (updatedSizes (pr.getD (freshFlowState t)) len) else (len : ℚ))) := by
  simp only [addFlowFeatures_ml]
  split_ifs <;> simp [lookup_dictSet_ne, lookup_dictSet_self]

theorem addFlow_ml_lookup_std_size (sq : ℚ → ℚ) (f0 : Features) (len : ℕ)
    (pr : Option FlowState) (t : ℚ) :
    List.lookup FKey.std_packet_size (addFlowFeatures_ml sq f0 len pr t).1
      = some (FVal.num (if 1 < (updatedSizes (pr.getD (freshFlowState t)) len).length
          then sq (qVar (updatedSizes (pr.getD (freshFlowState t)) len)) else 0)) := by
  simp only [addFlowFeatures_ml]
  split_ifs <;> simp [lookup_dictSet_ne, lookup_dictSet_self]

theorem addFlow_rule_lookup_avg_ia (f0 : Features) (len : ℕ)
    (pr : Option FlowState) (t : ℚ) :
    List.lookup FKey.avg_inter_arrival (addFlowFeatures_rule f0 len pr t).1
      = (if 1 < (updatedIaTimes (pr.getD (freshFlowState t)) t).length
          then some (FVal.num (qMean (updatedIaTimes (pr.getD (freshFlowState t)) t)))
          else List.lookup FKey.avg_inter_arrival
            (if (pr.getD (freshFlowState t)).last_packet_time ≠ 0
             then dictSet f0 FKey.inter_arrival_time
               (FVal.num (t - (pr.getD (freshFlowState t)).last_packet_time))
             else f0)) := by
  simp only [addFlowFeatures_rule]
  split_ifs <;> simp [lookup_dictSet_ne, lookup_dictSet_self]

theorem addFlow_rule_lookup_avg_size (f0 : Features) (len : ℕ)
    (pr : Option FlowState) (t : ℚ) :
    List.lookup FKey.avg_packet_size (addFlowFeatures_rule f0 len pr t).1
      = (if 1 < (updatedSizes (pr.getD (freshFlowState t)) len).length
          then some (FVal.num (qMean (updatedSizes (pr.getD (freshFlowState t)) len)))
          else List.lookup FKey.avg_packet_size
            (if (pr.getD (freshFlowState t)).last_packet_time ≠ 0
             then dictSet f0 FKey.inter_arrival_time
               (FVal.num (t - (pr.getD (freshFlowState t)).last_packet_time))
             else f0)) := by
  simp only [addFlowFeatures_rule]
  split_ifs <;> simp [lookup_dictSet_ne, lookup_dictSet_self]

/-- The header section of the rule extractor never stores the flow-derived
keys. -/
theorem header_rule_no_flow_keys (pkt : Packet) (ip : ℕ) :
    List.lookup FKey.inter_arrival_time (headerFeatures_rule pkt ip) = none
    ∧ List.lookup FKey.avg_inter_arrival (headerFeatures_rule pkt ip) = none
    ∧ List.lookup FKey.avg_packet_size (headerFeatures_rule pkt ip) = none := by
  obtain ⟨data, ip4, tcp4, udp4, icmp4⟩ := pkt
  cases ip4 <;> cases tcp4 <;> cases udp4 <;> cases icmp4 <;>
    simp [headerFeatures_rule, lookup_dictSet_ne]

/-- The header section of the ML extractor never stores the flow-derived
keys. -/
theorem header_ml_no_flow_keys (pkt : Packet) (ip : ℕ) :
    List.lookup FKey.inter_arrival_time (headerFeatures_ml pkt ip) = none
    ∧ List.lookup FKey.avg_inter_arrival (headerFeatures_ml pkt ip) = none
    ∧ List.lookup FKey.avg_packet_size (headerFeatures_ml pkt ip) = none := by
  obtain ⟨data, ip4, tcp4, udp4, icmp4⟩ := pkt
  cases ip4 <;> cases tcp4 <;> cases udp4 <;> cases icmp4 <;>
    simp [headerFeatures_ml, lookup_dictSet_ne]

/-- `src_port` is stored by the ML header section exactly when an IPv4
header and a transport header are present. -/
theorem header_ml_src (pkt : Packet) (ip : ℕ) :
    (List.lookup FKey.src_port (headerFeatures_ml pkt ip)).isSome
      ↔ pkt.ipv4.isSome ∧ (pkt.tcpH.isSome ∨ pkt.udpH.isSome) := by
  obtain ⟨data, ip4, tcp4, udp4, icmp4⟩ := pkt
  cases ip4 <;> cases tcp4 <;> cases udp4 <;> cases icmp4 <;>
    simp [headerFeatures_ml, lookup_dictSet_ne, lookup_dictSet_self]

/-- `src_port` is stored by the rule header section exactly when an IPv4
header and a transport header are present. -/
theorem header_rule_src (pkt : Packet) (ip : ℕ) :
    (List.lookup FKey.src_port (headerFeatures_rule pkt ip)).isSome
      ↔ pkt.ipv4.isSome ∧ (pkt.tcpH.isSome ∨ pkt.udpH.isSome) := by
  obtain ⟨data, ip4, tcp4, udp4, icmp4⟩ := pkt
  cases ip4 <;> cases tcp4 <;> cases udp4 <;> cases icmp4 <;>
    simp [headerFeatures_rule, lookup_dictSet_ne, lookup_dictSet_self]

theorem lookup_map_pair (l : List FKey) (f : FKey → ℚ) (k : FKey) (hk : k ∈ l) :
    List.lookup k (l.map fun x => (x, f x)) = some (f k) := by
  induction l with
  | nil => cases hk
  | cons a as ih =>
    rcases List.mem_cons.mp hk with h | h
    · subst h
      simp [List.lookup]
    · by_cases he : k = a
      · subst he
        simp [List.lookup]
      · have hb : (k == a) = false := beq_eq_false_iff_ne.mpr he
        simp [List.lookup, hb, ih h]

/-- C4 (amended): the model-side projection `prepare_features_for_model`
assigns every name of the fixed 23-feature schema a numeric value
(`raw_features.get(name, 0)`), but the raw feature dict built by either
extractor stores `src_port` exactly when an IPv4 header and a transport
header are present — header-dependent keys are omitted, not zero-filled,
when the packet lacks those headers. -/
theorem C4_schema (fv : Features) (k : FKey) (sq : ℚ → ℚ) (pkt : Packet) (ip : ℕ)
    (pr : Option FlowState) (t : ℚ) :
    (k ∈ expected_features →
      List.lookup k (model_feature_dict fv) = some (getNum fv k))
    ∧ ((List.lookup FKey.src_port (extract_flow_features_ml sq pkt ip pr t).1).isSome
        ↔ pkt.ipv4.isSome ∧ (pkt.tcpH.isSome ∨ pkt.udpH.isSome))
    ∧ ((List.lookup FKey.src_port (extract_flow_features_rule pkt ip pr t).1).isSome
        ↔ pkt.ipv4.isSome ∧ (pkt.tcpH.isSome ∨ pkt.udpH.isSome)) := by
  refine ⟨fun hk => lookup_map_pair expected_features (getNum fv) k hk, ?_, ?_⟩
  · simp only [extract_flow_features_ml]
    rw [addFlow_ml_lookup_src]
    exact header_ml_src pkt ip
  · simp only [extract_flow_features_rule]
    rw [addFlow_rule_lookup_src]
    exact header_rule_src pkt ip

theorem C4_schema_witness :
    List.lookup FKey.src_port (model_feature_dict []) = some (getNum [] FKey.src_port)
    ∧ getNum [] FKey.src_port = 0
    ∧ ((List.lookup FKey.src_port
          (extract_flow_features_ml (fun _ => 0) pkt0 1 none 1).1).isSome
        ↔ pkt0.ipv4.isSome ∧ (pkt0.tcpH.isSome ∨ pkt0.udpH.isSome)) := by
  have h := C4_schema [] FKey.src_port (fun _ => 0) pkt0 1 none 1
  exact ⟨h.1 (by decide), by simp [getNum], h.2.1⟩

def pktNoIp : Packet := ⟨[1, 2, 3], none, none, none, false⟩

/-- C4 (counterexample): `src_port` belongs to the fixed schema, yet for a
packet with no network-layer header neither extractor's feature dict
contains the key at all — it is omitted, not filled with 0. -/
theorem C4_counterexample :
    FKey.src_port ∈ expected_features
    ∧ List.lookup FKey.src_port
        (extract_flow_features_ml (fun _ => 0) pktNoIp 1 none 1).1 = none
    ∧ List.lookup FKey.src_port
        (extract_flow_features_rule pktNoIp 1 none 1).1 = none := by
  refine ⟨by decide, ?_, ?_⟩
  · simp only [extract_flow_features_ml]
    rw [addFlow_ml_lookup_src]
    simp [headerFeatures_ml, pktNoIp, lookup_dictSet_ne]
  · simp only [extract_flow_features_rule]
    rw [addFlow_rule_lookup_src]
    simp [headerFeatures_rule, pktNoIp, lookup_dictSet_ne]

/-- C8 (amended): when the updated inter-arrival window holds at most one
sample, the ML extractor stores 0 for both its mean and standard deviation;
when the updated size window holds at most one sample it stores 0 for the
standard deviation but the current packet's length — not 0 — for the mean;
the rule extractor stores no mean keys at all in that case (downstream
reads then default them to 0).  No computation raises: every path stores a
value. -/
theorem C8_single_sample (sq : ℚ → ℚ) (pkt : Packet) (ip : ℕ) (pr : Option FlowState)
    (t : ℚ) :
    ((extract_flow_features_ml sq pkt ip pr t).2.inter_arrival_times.length ≤ 1 →
      List.lookup FKey.avg_inter_arrival (extract_flow_features_ml sq pkt ip pr t).1
          = some (FVal.num 0)
      ∧ List.lookup FKey.std_inter_arrival (extract_flow_features_ml sq pkt ip pr t).1
          = some (FVal.num 0))
    ∧ ((extract_flow_features_ml sq pkt ip pr t).2.packet_sizes.length ≤ 1 →
      List.lookup FKey.avg_packet_size (extract_flow_features_ml sq pkt ip pr t).1
          = some (FVal.num pkt.data.length)
      ∧ List.lookup FKey.std_packet_size (extract_flow_features_ml sq pkt ip pr t).1
          = some (FVal.num 0))
    ∧ ((extract_flow_features_rule pkt ip pr t).2.inter_arrival_times.length ≤ 1 →
      List.lookup FKey.avg_inter_arrival (extract_flow_features_rule pkt ip pr t).1 = none)
    ∧ ((extract_flow_features_rule pkt ip pr t).2.packet_sizes.length ≤ 1 →
      List.lookup FKey.avg_packet_size (extract_flow_features_rule pkt ip pr t).1
        = none) := by
  refine ⟨?_, ?_, ?_, ?_⟩
  · intro h
    have h2 : (updatedIaTimes (pr.getD (freshFlowState t)) t).length ≤ 1 := h
    constructor
    · simp only [extract_flow_features_ml]
      rw [addFlow_ml_lookup_avg_ia, if_neg (not_lt.mpr h2)]
    · simp only [extract_flow_features_ml]
      rw [addFlow_ml_lookup_std_ia, if_neg (not_lt.mpr h2)]
  · intro h
    have h2 : (updatedSizes (pr.getD (freshFlowState t)) pkt.data.length).length ≤ 1 := h
    constructor
    · simp only [extract_flow_features_ml]
      rw [addFlow_ml_lookup_avg_size, if_neg (not_lt.mpr h2)]
    · simp only [extract_flow_features_ml]
      rw [addFlow_ml_lookup_std_size, if_neg (not_lt.mpr h2)]
  · intro h
    have h2 : (updatedIaTimes (pr.getD (freshFlowState t)) t).length ≤ 1 := h
    simp only [extract_flow_features_rule]
    rw [addFlow_rule_lookup_avg_ia, if_neg (not_lt.mpr h2)]
    split_ifs <;> simp [lookup_dictSet_ne, (header_rule_no_flow_keys pkt ip).2.1]
  · intro h
    have h2 : (updatedSizes (pr.getD (freshFlowState t)) pkt.data.length).length ≤ 1 := h
    simp only [extract_flow_features_rule]
    rw [addFlow_rule_lookup_avg_size, if_neg (not_lt.mpr h2)]
    split_ifs <;> simp [lookup_dictSet_ne, (header_rule_no_flow_keys pkt ip).2.2]

def pktSmall : Packet := ⟨[5, 6], none, none, none, false⟩

theorem C8_single_sample_witness :
    List.lookup FKey.avg_inter_arrival
        (extract_flow_features_ml (fun _ => 0) pktSmall 1 none 1).1 = some (FVal.num 0)
    ∧ List.lookup FKey.avg_packet_size
        (extract_flow_features_ml (fun _ => 0) pktSmall 1 none 1).1 = some (FVal.num 2)
    ∧ List.lookup FKey.avg_packet_size
        (extract_flow_features_rule pktSmall 1 none 1).1 = none := by
  have h := C8_single_sample (fun _ => 0) pktSmall 1 none 1
  have hia : (extract_flow_features_ml (fun _ => 0) pktSmall 1 none 1)
      |>.2.inter_arrival_times.length ≤ 1 := by
    show (updatedIaTimes (freshFlowState 1) 1).length ≤ 1
    simp [updatedIaTimes, freshFlowState]
  have hsz : (extract_flow_features_ml (fun _ => 0) pktSmall 1 none 1)
      |>.2.packet_sizes.length ≤ 1 := by
    show (updatedSizes (freshFlowState 1) pktSmall.data.length).length ≤ 1
    simp [updatedSizes, freshFlowState]
  have hsz2 : (extract_flow_features_rule pktSmall 1 none 1)
      |>.2.packet_sizes.length ≤ 1 := by
    show (updatedSizes (freshFlowState 1) pktSmall.data.length).length ≤ 1
    simp [updatedSizes, freshFlowState]
  refine ⟨(h.1 hia).1, ?_, h.2.2.2 hsz2⟩
  have hv := (h.2.1 hsz).1
  rw [hv]
  norm_num [pktSmall]

/-- C8 (counterexample): for a 2-byte first packet the size window holds
exactly one sample, yet the ML extractor's stored mean packet size is 2 —
the packet's length — and not 0. -/
theorem C8_counterexample :
    (extract_flow_features_ml (fun _ => 0) pktSmall 1 none 1).2.packet_sizes.length = 1
    ∧ List.lookup FKey.avg_packet_size
        (extract_flow_features_ml (fun _ => 0) pktSmall 1 none 1).1 = some (FVal.num 2)
    ∧ FVal.num 2 ≠ FVal.num 0 := by
  have hlen : ¬(1 < (updatedSizes (Option.getD (none : Option FlowState) (freshFlowState 1))
      pktSmall.data.length).length) := by
    simp [updatedSizes, freshFlowState]
  refine ⟨?_, ?_, by norm_num⟩
  · show (updatedSizes (freshFlowState 1) pktSmall.data.length).length = 1
    simp [updatedSizes, freshFlowState]
  · simp only [extract_flow_features_ml]
    rw [addFlow_ml_lookup_avg_size, if_neg hlen]
    norm_num [pktSmall]

/-- C9: on the first packet of a never-before-seen flow key (at any
positive wall-clock time), both extractors store the inter-arrival-time
feature as the defined numeric value 0. -/
theorem C9_first_packet (pkt : Packet) (ip : ℕ) (t : ℚ) (sq : ℚ → ℚ) (ht : 0 < t) :
    List.lookup FKey.inter_arrival_time (extract_flow_features_ml sq pkt ip none t).1
        = some (FVal.num 0)
    ∧ List.lookup FKey.inter_arrival_time (extract_flow_features_rule pkt ip none t).1
        = some (FVal.num 0) := by
  have hlast : (Option.getD (none : Option FlowState) (freshFlowState t)).last_packet_time
      ≠ 0 := by
    simp [freshFlowState]
    exact ht.ne'
  constructor
  · simp only [extract_flow_features_ml]
    rw [addFlow_ml_lookup_ia, if_pos hlast]
    simp [freshFlowState]
  · simp only [extract_flow_features_rule]
    rw [addFlow_rule_lookup_ia, if_pos hlast]
    simp [freshFlowState]

theorem C9_first_packet_witness :
    List.lookup FKey.inter_arrival_time
        (extract_flow_features_ml (fun _ => 0) pktNoIp 1 none 1).1 = some (FVal.num 0)
    ∧ List.lookup FKey.inter_arrival_time
        (extract_flow_features_rule pktNoIp 1 none 1).1 = some (FVal.num 0) :=
  C9_first_packet pktNoIp 1 1 (fun _ => 0) (by norm_num)
